import Mathlib

/-!
Verification of the Samplepedia visibility & scoring core.

Shallow embedding of the relevant parts of `samples/models.py`,
`samples/views/solutions.py`, `samples/views/samples.py`,
`samples/views/auth.py` and `samples/views/likes.py`.

Timestamps are modelled as `Nat` (a single canonical zone, instants totally
ordered).  User identities are modelled by their primary key (`Nat`).
Many-to-many "like" relations are modelled as the list of user ids in the
through table, in insertion order; the Django ORM guarantees no duplicate
rows per (user, target) pair because every `add` in the code base is guarded
by an `exists()` check.

Database columns that no claim touches (task description, goal, tags, tools,
images, URLs, markdown content, Discord flags, ...) are omitted from the
records; they are never read by the embedded operations.
-/

namespace Samplepedia

/-- A row of the external `User` table: primary key and username.
The `is_staff` role flag lives on the viewer descriptor below. -/
structure SiteUser where
  uid : Nat
  username : String
deriving DecidableEq

/-- The requesting identity, as Django presents it: either `AnonymousUser`
(`is_authenticated = False`, `is_staff = False`) or an authenticated user
carrying a primary key and a staff flag. -/
inductive Viewer where
  | anon
  | auth (uid : Nat) (staff : Bool)
deriving DecidableEq

/-- `samples/models.py`, `class AnalysisTask`.  Note the stored integer
column `like_count = models.IntegerField(default=0)` (models.py:306), which
is distinct from the derived property `favorite_count` (models.py:328-330). -/
structure AnalysisTask where
  id : Nat
  sha256 : String
  difficulty : String
  author : Nat
  like_count : Int
  favorited_by : List Nat
  created_at : Nat
deriving DecidableEq

/-- `samples/models.py`, `class Solution`, together with the `hidden_until`
column referenced throughout the views (`samples/views/solutions.py`,
`samples/views/samples.py`, `samples/views/auth.py`); the column is an
optional timestamp, `None` meaning the solution was never hidden. -/
structure Solution where
  id : Nat
  analysis_task : Nat
  title : String
  solution_type : String
  author : Nat
  liked_by : List Nat
  created_at : Nat
  hidden_until : Option Nat
deriving DecidableEq

/-- `AnalysisTask.favorite_count` (models.py:328-330): cardinality of the
`favorited_by` many-to-many relation. -/
def AnalysisTask.favorite_count (t : AnalysisTask) : Nat :=
  t.favorited_by.length

/-- `Solution.like_count` (models.py:408-410): cardinality of the
`liked_by` many-to-many relation. -/
def Solution.like_count (s : Solution) : Nat :=
  s.liked_by.length

/-! ### Visibility predicates -/

/-- `solution.hidden_until and timezone.now() < solution.hidden_until`
(`views/solutions.py:237`): a solution is currently hidden iff the optional
timestamp is set and strictly in the future.  Python truthiness: `None` is
falsy, a datetime is truthy. -/
def is_currently_hidden (s : Solution) (now : Nat) : Bool :=
  match s.hidden_until with
  | none => false
  | some t => now < t

/-- The SQL condition `hidden_until__lte=timezone.now()`: false on a NULL
column (SQL comparison with NULL fails), `t ≤ now` otherwise. -/
def hidden_lte (s : Solution) (now : Nat) : Bool :=
  match s.hidden_until with
  | none => false
  | some t => t ≤ now

/-- The hidden-solution filter stage of the global solution listing
(`views/solutions.py:41-53`): staff skip the filter; authenticated viewers
keep rows matching `Q(hidden_until__isnull=True) | Q(hidden_until__lte=now)
| Q(author=request.user)`; anonymous viewers lack the author escape. -/
def solution_list_includes (v : Viewer) (now : Nat) (s : Solution) : Bool :=
  match v with
  | .auth uid staff =>
    if staff then true
    else s.hidden_until.isNone || hidden_lte s now || (s.author == uid)
  | .anon => s.hidden_until.isNone || hidden_lte s now

/-- The hidden-solution filter of the task-detail page
(`views/samples.py:155-167`): the filter is applied only when the viewer is
neither staff nor the task's author; authenticated viewers additionally keep
their own solutions. -/
def sample_detail_includes (sample : AnalysisTask) (v : Viewer) (now : Nat)
    (s : Solution) : Bool :=
  match v with
  | .auth uid staff =>
    if !staff && uid != sample.author then
      s.hidden_until.isNone || hidden_lte s now || (s.author == uid)
    else true
  | .anon => s.hidden_until.isNone || hidden_lte s now

/-- The hidden-solution filter of the profile page (`views/auth.py:274-289`).
The view is `login_required`, so the viewer is always authenticated; the list
is pre-filtered to `author=profile_user` and then, unless the viewer is the
profile user or staff, restricted by the usual hidden-until disjunction. -/
def user_profile_includes (profile_uid uid : Nat) (staff : Bool) (now : Nat)
    (s : Solution) : Bool :=
  (s.author == profile_uid) &&
    (if uid == profile_uid then true
     else if staff then true
     else s.hidden_until.isNone || hidden_lte s now || (s.author == uid))

/-- Direct access to an on-site solution (`views/solutions.py:236-241`):
denied exactly when the solution is currently hidden and the viewer is not
an authenticated staff member, the solution's author or the task's author. -/
def view_onsite_allowed (sample : AnalysisTask) (v : Viewer) (now : Nat)
    (s : Solution) : Bool :=
  if is_currently_hidden s now then
    match v with
    | .auth uid staff => staff || uid == s.author || uid == sample.author
    | .anon => false
  else true

/-- Modelled from the spec: the inclusion policy the spec asserts for every
listing context — a currently-hidden solution is included iff the viewer is
staff, the solution's author or the owning task's author; a visible solution
is always included. -/
def should_include_spec (sample : AnalysisTask) (v : Viewer) (now : Nat)
    (s : Solution) : Bool :=
  if is_currently_hidden s now then
    match v with
    | .auth uid staff => staff || uid == s.author || uid == sample.author
    | .anon => false
  else true

/-- The policy the list views actually implement for currently-hidden
solutions: staff or the solution's author only (no task-author exemption). -/
def should_include_listing (v : Viewer) (now : Nat) (s : Solution) : Bool :=
  if is_currently_hidden s now then
    match v with
    | .auth uid staff => staff || uid == s.author
    | .anon => false
  else true

/-! ### Showcase (`views/solutions.py:350-362`) -/

/-- `Coalesce('hidden_until', 'created_at')` — the showcase sort key. -/
def visible_date (s : Solution) : Nat :=
  match s.hidden_until with
  | some t => t
  | none => s.created_at

/-- Descending order on `visible_date`, the comparison used by
`order_by('-visible_date')`. -/
def visGeRel (a b : Solution) : Prop := visible_date b ≤ visible_date a

instance : DecidableRel visGeRel := fun _ _ => Nat.decLe _ _

instance : IsTotal Solution visGeRel := ⟨fun a b => le_total (visible_date b) (visible_date a)⟩

instance : IsTrans Solution visGeRel := ⟨fun _ _ _ h1 h2 => le_trans h2 h1⟩

/-- `solutions_showcase` (`views/solutions.py:350-362`): keep rows matching
`Q(hidden_until__isnull=True) | Q(hidden_until__lte=now)` (no viewer in the
queryset at all), annotate `visible_date`, `order_by('-visible_date')`, take
the first 6.  The relational store's sort is modelled by a stable sort of
the table; no claim depends on the unspecified tie order. -/
def solutions_showcase (db_solutions : List Solution) (now : Nat) : List Solution :=
  (((db_solutions.filter
      (fun s => s.hidden_until.isNone || hidden_lte s now)).insertionSort
    visGeRel).take 6)

/-! ### Scoring (`samples/models.py:14-75`) -/

/-- `DIFFICULTY_POINTS` (models.py:16-21), the fixed difficulty → points
dictionary. -/
def DIFFICULTY_POINTS : List (String × Int) :=
  [("easy", 10), ("medium", 20), ("advanced", 40), ("expert", 80)]

/-- Python dict access `d[k]`; every key accessed below is present, so the
fallback value is never reached. -/
def dictGet (d : List (String × Int)) (k : String) : Int :=
  match d.find? (fun p => p.1 == k) with
  | some p => p.2
  | none => 0

/-- The `Case(When(difficulty='easy', then=DIFFICULTY_POINTS['easy']), ...,
default=1)` annotation of `get_user_score` (models.py:43-50 and 61-68). -/
def case_points (d : String) : Int :=
  if d == "easy" then dictGet DIFFICULTY_POINTS "easy"
  else if d == "medium" then dictGet DIFFICULTY_POINTS "medium"
  else if d == "advanced" then dictGet DIFFICULTY_POINTS "advanced"
  else if d == "expert" then dictGet DIFFICULTY_POINTS "expert"
  else 1

/-- SQL `Sum` aggregate: `NULL` on an empty row set, the sum otherwise. -/
def aggregate_sum (rows : List Int) : Option Int :=
  match rows with
  | [] => none
  | _ => some rows.sum

/-- The full database state the scoring and ranking paths read. -/
structure DB where
  users : List SiteUser
  tasks : List AnalysisTask
  solutions : List Solution

/-- Foreign-key dereference `solution.analysis_task` (select_related). -/
def taskById (db : DB) (tid : Nat) : Option AnalysisTask :=
  db.tasks.find? (fun t => t.id == tid)

/-- Well-formedness the relational store guarantees: unique user primary
keys, and every author / task foreign key resolves. -/
def DB.wf (db : DB) : Prop :=
  (db.users.map (·.uid)).Nodup ∧
  (∀ s ∈ db.solutions, ∃ t ∈ db.tasks, t.id = s.analysis_task) ∧
  (∀ t ∈ db.tasks, t.author ∈ db.users.map (·.uid)) ∧
  (∀ s ∈ db.solutions, s.author ∈ db.users.map (·.uid))

instance (db : DB) : Decidable db.wf := by
  unfold DB.wf; infer_instance

/-- `get_user_score` (models.py:24-75).  Each authored task row is annotated
with `weighted_likes = Count('favorited_by') * points` and summed; likewise
each authored solution row with the points of its parent task's difficulty
(inner join on the foreign key, modelled by `filterMap`).  The Python
truthiness test `if tasks['total']:` keeps the running 0 when the aggregate
is `None` or `0`. -/
def get_user_score (db : DB) (uid : Nat) : Int :=
  let task_rows := (db.tasks.filter (fun t => t.author == uid)).map
    (fun t => (t.favorited_by.length : Int) * case_points t.difficulty)
  let task_score : Int :=
    match aggregate_sum task_rows with
    | some v => if v ≠ 0 then v else 0
    | none => 0
  let sol_rows := (db.solutions.filter (fun s => s.author == uid)).filterMap
    (fun s => (taskById db s.analysis_task).map
      (fun t => (s.liked_by.length : Int) * case_points t.difficulty))
  let solution_score : Int :=
    match aggregate_sum sol_rows with
    | some v => if v ≠ 0 then v else 0
    | none => 0
  task_score + solution_score

/-- Modelled from the spec: the fixed weight table {easy:10, medium:20,
advanced:40, expert:80}, any unknown or missing difficulty weighing 1. -/
def difficulty_weight (d : String) : Int :=
  if d == "easy" then 10
  else if d == "medium" then 20
  else if d == "advanced" then 40
  else if d == "expert" then 80
  else 1

/-- The difficulty of a solution's parent task (total under `DB.wf`). -/
def parent_difficulty (db : DB) (s : Solution) : String :=
  match taskById db s.analysis_task with
  | some t => t.difficulty
  | none => ""

/-- Modelled from the spec: score as the plain double sum of
weight × like-cardinality over authored tasks and authored solutions. -/
def score_spec (db : DB) (uid : Nat) : Int :=
  ((db.tasks.filter (fun t => t.author == uid)).map
    (fun t => difficulty_weight t.difficulty * (t.favorited_by.length : Int))).sum
  + ((db.solutions.filter (fun s => s.author == uid)).map
    (fun s => difficulty_weight (parent_difficulty db s) * (s.liked_by.length : Int))).sum

/-! ### Ranking (`views/auth.py:491-525` and `views/auth.py:329-351`) -/

/-- `User.objects.filter(Q(analysis_tasks__isnull=False) |
Q(solutions__isnull=False)).distinct()`: the users that authored at least
one task or solution, in table order. -/
def active_users (db : DB) : List Nat :=
  (db.users.map (·.uid)).filter
    (fun u => db.tasks.any (fun t => t.author == u)
      || db.solutions.any (fun s => s.author == u))

/-- The `user_scores` accumulation loop shared by `ranking` and
`user_profile`: keep `(user, score)` for every active user with a strictly
positive score. -/
def user_scores_list (db : DB) : List (Nat × Int) :=
  (active_users db).filterMap (fun u =>
    let s := get_user_score db u
    if 0 < s then some (u, s) else none)

/-- Descending order on the score component — the comparison behind
`user_scores.sort(key=lambda x: x['score'], reverse=True)`. -/
def scoreGeRel (a b : Nat × Int) : Prop := b.2 ≤ a.2

instance : DecidableRel scoreGeRel := fun _ _ => Int.decLe _ _

instance : IsTotal (Nat × Int) scoreGeRel := ⟨fun a b => le_total b.2 a.2⟩

instance : IsTrans (Nat × Int) scoreGeRel := ⟨fun _ _ _ h1 h2 => le_trans h2 h1⟩

/-- One row of the rendered ranking table. -/
structure RankEntry where
  user : Nat
  score : Int
  rank : Nat
deriving DecidableEq

/-- `for idx, item in enumerate(user_scores, start=1): item['rank'] = idx`
(`views/auth.py:524-525`). -/
def add_ranks : List (Nat × Int) → Nat → List RankEntry
  | [], _ => []
  | p :: rest, n => ⟨p.1, p.2, n⟩ :: add_ranks rest (n + 1)

/-- The `ranking` view (`views/auth.py:491-525`): score every active user,
drop non-positive scores, stable-sort descending by score, number from 1. -/
def ranking (db : DB) : List RankEntry :=
  add_ranks ((user_scores_list db).insertionSort scoreGeRel) 1

/-- The rank-search loop of `user_profile` (`views/auth.py:344-351`):
`for idx, item in enumerate(user_scores, start=1): if item['user_id'] ==
profile_user.id: user_rank = idx; break`. -/
def find_rank : List (Nat × Int) → Nat → Nat → Option Nat
  | [], _, _ => none
  | p :: rest, uid, idx => if p.1 == uid then some idx else find_rank rest uid (idx + 1)

/-- The rank shown on a profile page (`views/auth.py:329-352`): `None` for a
non-positive score, otherwise the 1-based position of the first matching
user in the same sorted positive-score list the ranking page builds. -/
def user_profile_rank (db : DB) (uid : Nat) : Option Nat :=
  if 0 < get_user_score db uid then
    find_rank ((user_scores_list db).insertionSort scoreGeRel) uid 1
  else none

/-! ### Likes and notifications (`views/likes.py`) -/

/-- The two Django content types a notification's generic foreign key can
point at here. -/
inductive TargetType where
  | analysisTask
  | solutionType
deriving DecidableEq

/-- `samples/models.py`, `class Notification`: the columns the like paths
read or write.  `data` models the JSON dict as a key/value list. -/
structure Notif where
  nid : Nat
  recipient : Nat
  actor : Nat
  verb : String
  target_type : TargetType
  target_id : Nat
  description : String
  unread : Bool
  data : List (String × String)
  timestamp : Nat
deriving DecidableEq

/-- The notification table plus the primary-key counter. -/
structure NotifStore where
  notifs : List Notif
  next_id : Nat
deriving DecidableEq

/-- `User.objects` lookup of a username by primary key. -/
def usernameOf (users : List SiteUser) (uid : Nat) : String :=
  match users.find? (fun u => u.uid == uid) with
  | some u => u.username
  | none => ""

/-- `m2m.remove(user)`: delete the relation rows for this user. -/
def m2m_remove (l : List Nat) (uid : Nat) : List Nat :=
  l.filter (fun x => x != uid)

/-- `m2m.add(user)`: insert a relation row unless one exists already. -/
def m2m_add (l : List Nat) (uid : Nat) : List Nat :=
  if l.contains uid then l else l ++ [uid]

/-- `Notification` default ordering is `['-timestamp']` (models.py:178), so
`.first()` on a filtered queryset returns the newest matching row. -/
def notif_first (l : List Notif) : Option Notif :=
  (l.insertionSort (fun a b => b.timestamp ≤ a.timestamp)).head?

instance : DecidableRel (fun (a b : Notif) => b.timestamp ≤ a.timestamp) :=
  fun _ _ => Nat.decLe _ _

/-- The filter `recipient=sample.author, verb='liked',
target_content_type=ContentType(AnalysisTask), target_object_id=sample.id`
(likes.py:40-45 and 54-60, the latter adding `unread=True`). -/
def task_like_notif (author tid : Nat) (m : Notif) : Bool :=
  m.recipient == author && m.verb == "liked" &&
    m.target_type == TargetType.analysisTask && m.target_id == tid

/-- The filter `recipient=solution.author, verb='liked_solution',
target_content_type=ContentType(Solution), target_object_id=solution.id`
(likes.py:135-140 and 149-155). -/
def solution_like_notif (author sid : Nat) (m : Notif) : Bool :=
  m.recipient == author && m.verb == "liked_solution" &&
    m.target_type == TargetType.solutionType && m.target_id == sid

/-- What `toggle_like` / `toggle_solution_like` return to the caller: the
updated rows and the JSON payload `{'liked': ..., 'like_count': ...}`. -/
structure TaskToggleResult where
  sample : AnalysisTask
  store : NotifStore
  liked : Bool
  like_count : Nat
deriving DecidableEq

structure SolutionToggleResult where
  solution : Solution
  store : NotifStore
  liked : Bool
  like_count : Nat
deriving DecidableEq

/-- The aggregated description of likes.py:62-77.  `other_likers.first()`
runs on an unordered queryset; the store's row order (our list order) models
the arbitrary order the database returns. -/
def task_like_description (users : List SiteUser) (uname : String)
    (other_likers : List Nat) : String :=
  if other_likers.length == 0 then
    uname ++ " liked your sample"
  else if other_likers.length == 1 then
    uname ++ " and " ++ usernameOf users (other_likers.headI) ++ " liked your sample"
  else
    uname ++ " and " ++ toString other_likers.length ++ " others liked your sample"

/-- `toggle_like` (likes.py:9-99) for an authenticated requester `uid` at
instant `now`.  The author's own toggle is the notification-free fast path
(likes.py:20-31); otherwise an unlike deletes every matching 'liked'
notification and a like creates or updates the aggregated one. -/
def toggle_like (users : List SiteUser) (sample : AnalysisTask)
    (store : NotifStore) (uid : Nat) (now : Nat) : TaskToggleResult :=
  let uname := usernameOf users uid
  if uid == sample.author then
    if sample.favorited_by.contains uid then
      let sample' := { sample with favorited_by := m2m_remove sample.favorited_by uid }
      ⟨sample', store, false, sample'.favorite_count⟩
    else
      let sample' := { sample with favorited_by := m2m_add sample.favorited_by uid }
      ⟨sample', store, true, sample'.favorite_count⟩
  else if sample.favorited_by.contains uid then
    let sample' := { sample with favorited_by := m2m_remove sample.favorited_by uid }
    let store' := { store with
      notifs := store.notifs.filter (fun m => !task_like_notif sample.author sample.id m) }
    ⟨sample', store', false, sample'.favorite_count⟩
  else
    let sample' := { sample with favorited_by := m2m_add sample.favorited_by uid }
    match notif_first (store.notifs.filter
        (fun m => task_like_notif sample.author sample.id m && m.unread)) with
    | some n =>
      let other_likers := sample'.favorited_by.filter (fun x => x != uid)
      let n' := { n with
        description := task_like_description users uname other_likers
        actor := uid
        data := [("sha256", sample.sha256.take 12)]
        timestamp := now }
      let store' := { store with
        notifs := store.notifs.map (fun m => if m.nid == n.nid then n' else m) }
      ⟨sample', store', true, sample'.favorite_count⟩
    | none =>
      let store' := { store with
        notifs := store.notifs ++ [⟨store.next_id, sample.author, uid, "liked",
          TargetType.analysisTask, sample.id, uname ++ " liked your sample", true,
          [("sha256", sample.sha256.take 12)], now⟩]
        next_id := store.next_id + 1 }
      ⟨sample', store', true, sample'.favorite_count⟩

/-- `solution.title[:60] + '...' if len(solution.title) > 60 else
solution.title` (likes.py:164 etc., `TITLE_MAX_LENGTH = 60`). -/
def truncated_title (title : String) : String :=
  if title.length > 60 then title.take 60 ++ "..." else title

/-- The aggregated description of likes.py:157-175. -/
def solution_like_description (users : List SiteUser) (uname title : String)
    (other_likers : List Nat) : String :=
  if other_likers.length == 0 then
    uname ++ " liked your solution '" ++ truncated_title title ++ "'"
  else if other_likers.length == 1 then
    uname ++ " and " ++ usernameOf users (other_likers.headI)
      ++ " liked your solution '" ++ truncated_title title ++ "'"
  else
    uname ++ " and " ++ toString other_likers.length
      ++ " others liked your solution '" ++ truncated_title title ++ "'"

/-- `toggle_solution_like` (likes.py:102-198), the same shape as
`toggle_like` over the solution's `liked_by` relation and the
'liked_solution' verb. -/
def toggle_solution_like (users : List SiteUser) (solution : Solution)
    (store : NotifStore) (uid : Nat) (now : Nat) : SolutionToggleResult :=
  let uname := usernameOf users uid
  if uid == solution.author then
    if solution.liked_by.contains uid then
      let solution' := { solution with liked_by := m2m_remove solution.liked_by uid }
      ⟨solution', store, false, solution'.like_count⟩
    else
      let solution' := { solution with liked_by := m2m_add solution.liked_by uid }
      ⟨solution', store, true, solution'.like_count⟩
  else if solution.liked_by.contains uid then
    let solution' := { solution with liked_by := m2m_remove solution.liked_by uid }
    let store' := { store with
      notifs := store.notifs.filter
        (fun m => !solution_like_notif solution.author solution.id m) }
    ⟨solution', store', false, solution'.like_count⟩
  else
    let solution' := { solution with liked_by := m2m_add solution.liked_by uid }
    match notif_first (store.notifs.filter
        (fun m => solution_like_notif solution.author solution.id m && m.unread)) with
    | some n =>
      let other_likers := solution'.liked_by.filter (fun x => x != uid)
      let n' := { n with
        description := solution_like_description users uname solution.title other_likers
        actor := uid
        data := [("solution_title", solution.title.take 60)]
        timestamp := now }
      let store' := { store with
        notifs := store.notifs.map (fun m => if m.nid == n.nid then n' else m) }
      ⟨solution', store', true, solution'.like_count⟩
    | none =>
      let store' := { store with
        notifs := store.notifs ++ [⟨store.next_id, solution.author, uid, "liked_solution",
          TargetType.solutionType, solution.id,
          uname ++ " liked your solution '" ++ truncated_title solution.title ++ "'", true,
          [("solution_title", solution.title.take 60)], now⟩]
        next_id := store.next_id + 1 }
      ⟨solution', store', true, solution'.like_count⟩

/-! ### Solution deletion (`views/solutions.py:195-226`) -/

/-- How `delete_solution` ends: an early permission redirect, the
last-reference refusal, an actual deletion, or the non-POST fallthrough. -/
inductive DeleteOutcome where
  | redirected_no_permission
  | refused_last_reference
  | deleted
  | redirected_not_post
deriving DecidableEq

/-- `delete_solution` (views/solutions.py:195-226) acting on the solution
table: the requester must be the solution's author or staff; on POST, a
reference solution (authored by the task's author) is refused when it is
the last one, otherwise the row is deleted. -/
def delete_solution (db_solutions : List Solution) (sample : AnalysisTask)
    (sol : Solution) (uid : Nat) (staff : Bool) (is_post : Bool) :
    List Solution × DeleteOutcome :=
  if sol.author != uid && !staff then
    (db_solutions, DeleteOutcome.redirected_no_permission)
  else if is_post then
    let is_reference_solution := sol.author == sample.author
    let reference_solution_count := (db_solutions.filter
      (fun s => s.analysis_task == sample.id && s.author == sample.author)).length
    if is_reference_solution && reference_solution_count ≤ 1 then
      (db_solutions, DeleteOutcome.refused_last_reference)
    else
      (db_solutions.filter (fun s => s.id != sol.id), DeleteOutcome.deleted)
  else
    (db_solutions, DeleteOutcome.redirected_not_post)

/-! ### Helper lemmas -/

/-- The listing disjunction `isnull ∨ lte now` is the complement of
`is_currently_hidden`. -/
lemma visible_eq_not_hidden (s : Solution) (now : Nat) :
    (s.hidden_until.isNone || hidden_lte s now) = !is_currently_hidden s now := by
  unfold is_currently_hidden hidden_lte
  cases s.hidden_until with
  | none => rfl
  | some t =>
    simp only [Option.isNone_some, Bool.false_or]
    rw [← decide_not]
    exact decide_eq_decide.mpr (by omega)

lemma visible_or_lte (s : Solution) (now : Nat) :
    (s.hidden_until.isNone || hidden_lte s now) = true ↔
      is_currently_hidden s now = false := by
  rw [visible_eq_not_hidden]
  cases is_currently_hidden s now <;> simp

/-! ### C4 -/

/-- C4: with `hidden_until` unset a solution is never hidden; with
`hidden_until = T` it is hidden exactly while `now < T`, visible at the
boundary `now = T`, and once an instant `≥ T` has been reached it is not
hidden at any later instant. -/
theorem hidden_until_semantics (s : Solution) (now : Nat) :
    (s.hidden_until = none → is_currently_hidden s now = false) ∧
    (∀ T, s.hidden_until = some T →
      ((is_currently_hidden s now = true ↔ now < T) ∧
        (is_currently_hidden s now = false ↔ T ≤ now) ∧
        is_currently_hidden s T = false)) ∧
    (∀ T later, s.hidden_until = some T → T ≤ now → now ≤ later →
      is_currently_hidden s later = false) := by
  refine ⟨fun h => by simp [is_currently_hidden, h], fun T hT => ?_,
    fun T later hT h1 h2 => ?_⟩ <;> simp [is_currently_hidden, hT] <;> omega

/-- Witness for C4 at `hidden_until = some 5`: hidden at 3, visible from 5
on, and never hidden again at 7. -/
theorem hidden_until_semantics_witness :
    is_currently_hidden ⟨1, 1, "w", "onsite", 2, [], 0, some 5⟩ 7 = false :=
  (hidden_until_semantics ⟨1, 1, "w", "onsite", 2, [], 0, some 5⟩ 5).2.2 5 7 rfl
    (by decide) (by decide)

/-! ### C3 -/

/-- C3: the showcase queryset has no viewer parameter at all, so for every
viewer (staff included) it contains no currently-hidden solution, and its
rows are ordered descending by `visible_date = coalesce(hidden_until,
created_at)` — so a recently-unhidden solution outranks a never-hidden one
with an older `created_at`. -/
theorem showcase_excludes_hidden_and_sorts_by_visible_date
    (db_solutions : List Solution) (now : Nat) :
    (∀ s ∈ solutions_showcase db_solutions now, is_currently_hidden s now = false) ∧
    (solutions_showcase db_solutions now).Pairwise
      (fun a b => visible_date b ≤ visible_date a) := by
  constructor
  · intro s hs
    have hs' : s ∈ (db_solutions.filter
        (fun s => s.hidden_until.isNone || hidden_lte s now)).insertionSort visGeRel :=
      List.take_subset _ _ hs
    have hmem := (List.mem_insertionSort visGeRel).mp hs'
    exact (visible_or_lte s now).mp (List.mem_filter.mp hmem).2
  · have hsorted : ((db_solutions.filter
        (fun s => s.hidden_until.isNone || hidden_lte s now)).insertionSort
          visGeRel).Pairwise visGeRel :=
      List.sorted_insertionSort visGeRel _
    exact (hsorted.sublist (List.take_sublist _ _)).imp (fun h => h)

/-- Witness for C3 on a concrete table: a year-old solution unhidden at
instant 8 is listed, not hidden, and precedes a week-old never-hidden one. -/
theorem showcase_witness :
    is_currently_hidden ⟨1, 1, "a", "blog", 2, [], 1, some 8⟩ 10 = false ∧
    solutions_showcase
      [⟨2, 1, "b", "blog", 3, [], 3, none⟩, ⟨1, 1, "a", "blog", 2, [], 1, some 8⟩] 10 =
      [⟨1, 1, "a", "blog", 2, [], 1, some 8⟩, ⟨2, 1, "b", "blog", 3, [], 3, none⟩] :=
  ⟨(showcase_excludes_hidden_and_sorts_by_visible_date
      [⟨2, 1, "b", "blog", 3, [], 3, none⟩, ⟨1, 1, "a", "blog", 2, [], 1, some 8⟩] 10).1
    ⟨1, 1, "a", "blog", 2, [], 1, some 8⟩ (by decide), by decide⟩

/-! ### C1 -/

/-- C1 counterexample: a currently-hidden solution (hidden until 10, now 0)
authored by user 2 on a task authored by user 1.  The non-staff task author
(user 1) is let through by the direct on-site view, but the global solution
listing and the profile listing exclude exactly that viewer — the inclusion
policy is not the same in every context. -/
theorem inclusion_policy_counterexample :
    is_currently_hidden ⟨1, 1, "w", "onsite", 2, [], 0, some 10⟩ 0 = true ∧
    view_onsite_allowed ⟨1, "ab", "easy", 1, 0, [], 0⟩ (Viewer.auth 1 false) 0
      ⟨1, 1, "w", "onsite", 2, [], 0, some 10⟩ = true ∧
    sample_detail_includes ⟨1, "ab", "easy", 1, 0, [], 0⟩ (Viewer.auth 1 false) 0
      ⟨1, 1, "w", "onsite", 2, [], 0, some 10⟩ = true ∧
    solution_list_includes (Viewer.auth 1 false) 0
      ⟨1, 1, "w", "onsite", 2, [], 0, some 10⟩ = false ∧
    user_profile_includes 2 1 false 0
      ⟨1, 1, "w", "onsite", 2, [], 0, some 10⟩ = false := by
  decide

/-- C1 amended: the task-detail list and the direct on-site view implement
the spec's policy (staff ∨ solution author ∨ task author), but the global
solution listing and the per-user profile list exempt only staff and the
solution's author — the owning task's author gets no exemption there. -/
theorem inclusion_policy_by_context (sample : AnalysisTask) (v : Viewer)
    (now : Nat) (s : Solution) (profile_uid uid : Nat) (staff : Bool) :
    sample_detail_includes sample v now s = should_include_spec sample v now s ∧
    view_onsite_allowed sample v now s = should_include_spec sample v now s ∧
    solution_list_includes v now s = should_include_listing v now s ∧
    user_profile_includes profile_uid uid staff now s =
      ((s.author == profile_uid) &&
        should_include_listing (Viewer.auth uid staff) now s) := by
  refine ⟨?_, rfl, ?_, ?_⟩
  · simp only [sample_detail_includes, should_include_spec, visible_eq_not_hidden]
    cases v with
    | anon => cases hh : is_currently_hidden s now <;> simp [hh]
    | auth u st =>
      cases hh : is_currently_hidden s now with
      | false => simp [hh]
      | true =>
        cases st with
        | true => simp [hh]
        | false =>
          by_cases hu : u = sample.author
          · simp [hh, hu]
          · by_cases ha : u = s.author
            · simp [hh, hu, ha]
            · rw [Bool.eq_iff_iff]
              simp [hh, hu, ha, Ne.symm ha]
  · simp only [solution_list_includes, should_include_listing, visible_eq_not_hidden]
    cases v with
    | anon => cases hh : is_currently_hidden s now <;> simp [hh]
    | auth u st =>
      cases hh : is_currently_hidden s now with
      | false => cases st <;> simp [hh]
      | true =>
        cases st with
        | true => simp [hh]
        | false => simp [hh, eq_comm]
  · simp only [user_profile_includes, should_include_listing, visible_eq_not_hidden]
    cases hh : is_currently_hidden s now with
    | false => simp [hh]
    | true =>
      rw [Bool.eq_iff_iff]
      by_cases hsp : s.author = profile_uid
      · by_cases hup : uid = profile_uid
        · simp [hh, hsp, hup]
        · cases staff <;> simp [hh, hsp, hup, Ne.symm hup]
      · simp [hh, hsp]

/-! ### C2 -/

lemma case_points_eq_weight (d : String) : case_points d = difficulty_weight d := by
  unfold case_points difficulty_weight
  split_ifs <;> rfl

/-- The Python truthiness dance `x = 0; if total: x = total` around a SQL
`Sum` collapses to the plain mathematical sum. -/
lemma truthiness_sum (rows : List Int) :
    (match aggregate_sum rows with
      | some v => if v ≠ 0 then v else 0
      | none => 0) = rows.sum := by
  cases rows with
  | nil => rfl
  | cons a l =>
    show (if (a :: l).sum ≠ 0 then (a :: l).sum else 0) = (a :: l).sum
    split_ifs with h
    · rfl
    · omega

/-- Under foreign-key integrity the inner join of solutions with their
parent task keeps every row. -/
lemma sol_rows_join (db : DB) (l : List Solution)
    (h : ∀ s ∈ l, ∃ t ∈ db.tasks, t.id = s.analysis_task) :
    (l.filterMap (fun s => (taskById db s.analysis_task).map
        (fun t => (s.liked_by.length : Int) * case_points t.difficulty)))
      = l.map (fun s =>
          difficulty_weight (parent_difficulty db s) * (s.liked_by.length : Int)) := by
  induction l with
  | nil => rfl
  | cons a l ih =>
    obtain ⟨t, ht, hid⟩ := h a (List.mem_cons_self a l)
    have hsome : (taskById db a.analysis_task).isSome := by
      unfold taskById
      rw [List.find?_isSome]
      exact ⟨t, ht, by simp [hid]⟩
    obtain ⟨t', hfind⟩ := Option.isSome_iff_exists.mp hsome
    rw [List.filterMap_cons, List.map_cons, hfind]
    simp only [Option.map_some']
    rw [ih (fun s hs => h s (List.mem_cons_of_mem a hs))]
    congr 1
    unfold parent_difficulty
    simp only [hfind]
    rw [case_points_eq_weight]
    exact Int.mul_comm _ _

/-- C2: `get_user_score` equals the spec's double sum — over authored tasks,
weight of the task's difficulty times the like cardinality, plus, over
authored solutions, weight of the parent task's difficulty times the like
cardinality, with the {easy:10, medium:20, advanced:40, expert:80} table
and weight 1 for anything else. -/
theorem get_user_score_eq_spec (db : DB) (uid : Nat) (hwf : db.wf) :
    get_user_score db uid = score_spec db uid := by
  unfold get_user_score score_spec
  simp only
  rw [truthiness_sum, truthiness_sum]
  congr 1
  · rw [List.map_congr_left]
    intro t _
    rw [case_points_eq_weight, Int.mul_comm]
  · rw [sol_rows_join db _ (fun s hs => hwf.2.1 s (List.mem_of_mem_filter hs))]

/-- Witness for C2 on a concrete store: one easy task with one like and one
solution on it with one like, authored by user 1. -/
theorem get_user_score_eq_spec_witness :
    get_user_score
      ⟨[⟨1, "a"⟩, ⟨2, "b"⟩], [⟨1, "f0", "easy", 1, 0, [2], 0⟩],
        [⟨1, 1, "s", "blog", 1, [2], 0, none⟩]⟩ 1 =
    score_spec
      ⟨[⟨1, "a"⟩, ⟨2, "b"⟩], [⟨1, "f0", "easy", 1, 0, [2], 0⟩],
        [⟨1, 1, "s", "blog", 1, [2], 0, none⟩]⟩ 1 :=
  get_user_score_eq_spec _ 1 (by decide)

/-! ### C5 -/

lemma mem_user_scores_iff (db : DB) (p : Nat × Int) :
    p ∈ user_scores_list db ↔
      p.1 ∈ active_users db ∧ p.2 = get_user_score db p.1 ∧ 0 < p.2 := by
  simp only [user_scores_list, List.mem_filterMap]
  constructor
  · rintro ⟨u, hu, hf⟩
    by_cases h : 0 < get_user_score db u
    · rw [if_pos h, Option.some_inj] at hf
      subst hf
      exact ⟨hu, rfl, h⟩
    · rw [if_neg h] at hf
      cases hf
  · rintro ⟨h1, h2, h3⟩
    refine ⟨p.1, h1, ?_⟩
    rw [if_pos (h2 ▸ h3), ← h2]

lemma mem_active_users (db : DB) (u : Nat) :
    u ∈ active_users db ↔ u ∈ db.users.map (·.uid) ∧
      ((∃ t ∈ db.tasks, t.author = u) ∨ (∃ s ∈ db.solutions, s.author = u)) := by
  unfold active_users
  rw [List.mem_filter]
  simp

lemma score_zero_of_no_authored (db : DB) (u : Nat)
    (ht : ∀ t ∈ db.tasks, t.author ≠ u) (hs : ∀ s ∈ db.solutions, s.author ≠ u) :
    get_user_score db u = 0 := by
  unfold get_user_score
  have h1 : db.tasks.filter (fun t => t.author == u) = [] :=
    List.filter_eq_nil_iff.mpr (fun t htm => by simp [ht t htm])
  have h2 : db.solutions.filter (fun s => s.author == u) = [] :=
    List.filter_eq_nil_iff.mpr (fun s hsm => by simp [hs s hsm])
  rw [h1, h2]
  rfl

lemma authored_of_score_ne_zero (db : DB) (u : Nat) (h : get_user_score db u ≠ 0) :
    (∃ t ∈ db.tasks, t.author = u) ∨ (∃ s ∈ db.solutions, s.author = u) := by
  by_contra hc
  push_neg at hc
  exact h (score_zero_of_no_authored db u hc.1 hc.2)

lemma add_ranks_mem : ∀ (l : List (Nat × Int)) (n : Nat) (e : RankEntry),
    e ∈ add_ranks l n → (e.user, e.score) ∈ l
  | p :: rest, n, e, h => by
    rcases List.mem_cons.mp h with h | h
    · subst h
      exact List.mem_cons_self _ _
    · exact List.mem_cons_of_mem _ (add_ranks_mem rest (n + 1) e h)

lemma mem_add_ranks_of_mem : ∀ (l : List (Nat × Int)) (n : Nat) (p : Nat × Int),
    p ∈ l → ∃ e ∈ add_ranks l n, e.user = p.1 ∧ e.score = p.2
  | q :: rest, n, p, h => by
    rcases List.mem_cons.mp h with h | h
    · subst h
      exact ⟨⟨p.1, p.2, n⟩, List.mem_cons_self _ _, rfl, rfl⟩
    · obtain ⟨e, he, h1, h2⟩ := mem_add_ranks_of_mem rest (n + 1) p h
      exact ⟨e, List.mem_cons_of_mem _ he, h1, h2⟩

lemma add_ranks_pairwise : ∀ (l : List (Nat × Int)) (n : Nat),
    l.Pairwise scoreGeRel →
      (add_ranks l n).Pairwise (fun a b => b.score ≤ a.score)
  | [], _, _ => List.Pairwise.nil
  | p :: rest, n, h => by
    obtain ⟨hhead, htail⟩ := List.pairwise_cons.mp h
    refine List.Pairwise.cons ?_ (add_ranks_pairwise rest (n + 1) htail)
    intro e he
    exact hhead (e.user, e.score) (add_ranks_mem rest (n + 1) e he)

lemma add_ranks_map_rank : ∀ (l : List (Nat × Int)) (n : Nat),
    (add_ranks l n).map (·.rank) = List.range' n l.length
  | [], _ => rfl
  | p :: rest, n => by
    simp only [add_ranks, List.map_cons, List.length_cons, List.range'_succ]
    rw [add_ranks_map_rank rest (n + 1)]

lemma add_ranks_length : ∀ (l : List (Nat × Int)) (n : Nat),
    (add_ranks l n).length = l.length
  | [], _ => rfl
  | _ :: rest, n => by
    simp only [add_ranks, List.length_cons]
    rw [add_ranks_length rest (n + 1)]

/-- C5: the ranking contains exactly the stored users with strictly positive
score; it is sorted descending by score; ranks are the 1-based positions;
and a user who authored neither a task nor a solution scores 0 and is
simply absent (no error path exists in the embedded computation). -/
theorem ranking_characterization (db : DB) :
    (∀ u, (∃ e ∈ ranking db, e.user = u) ↔
      (u ∈ db.users.map (·.uid) ∧ 0 < get_user_score db u)) ∧
    (ranking db).Pairwise (fun a b => b.score ≤ a.score) ∧
    (ranking db).map (·.rank) = List.range' 1 (ranking db).length ∧
    (∀ u, (∀ t ∈ db.tasks, t.author ≠ u) → (∀ s ∈ db.solutions, s.author ≠ u) →
      get_user_score db u = 0 ∧ ∀ e ∈ ranking db, e.user ≠ u) := by
  have hmem : ∀ u, (∃ e ∈ ranking db, e.user = u) ↔
      (u ∈ db.users.map (·.uid) ∧ 0 < get_user_score db u) := by
    intro u
    constructor
    · rintro ⟨e, he, rfl⟩
      have h1 : (e.user, e.score) ∈ (user_scores_list db).insertionSort scoreGeRel :=
        add_ranks_mem _ 1 e he
      have h2 := (mem_user_scores_iff db (e.user, e.score)).mp
        ((List.mem_insertionSort scoreGeRel).mp h1)
      exact ⟨((mem_active_users db e.user).mp h2.1).1, h2.2.1 ▸ h2.2.2⟩
    · rintro ⟨hu, hpos⟩
      have hact : u ∈ active_users db :=
        (mem_active_users db u).mpr
          ⟨hu, authored_of_score_ne_zero db u (by omega)⟩
      have hus : (u, get_user_score db u) ∈ user_scores_list db :=
        (mem_user_scores_iff db (u, get_user_score db u)).mpr ⟨hact, rfl, hpos⟩
      obtain ⟨e, he, h1, _⟩ := mem_add_ranks_of_mem _ 1 (u, get_user_score db u)
        ((List.mem_insertionSort scoreGeRel).mpr hus)
      exact ⟨e, he, h1⟩
  refine ⟨hmem, ?_, ?_, ?_⟩
  · exact add_ranks_pairwise _ 1 (List.sorted_insertionSort scoreGeRel _)
  · show (ranking db).map (·.rank) = List.range' 1 (ranking db).length
    unfold ranking
    rw [add_ranks_map_rank _ 1, add_ranks_length _ 1]
  · intro u ht hs
    have hz := score_zero_of_no_authored db u ht hs
    refine ⟨hz, fun e he hne => ?_⟩
    have := ((hmem u).mp ⟨e, he, hne⟩).2
    omega

/-- Witness for C5: a concrete store with a liked task for user 1 and an
idle user 2 — user 1 is ranked, user 2 scores 0 and is absent. -/
theorem ranking_characterization_witness :
    (∃ e ∈ ranking ⟨[⟨1, "a"⟩, ⟨2, "b"⟩], [⟨1, "f0", "easy", 1, 0, [2], 0⟩], []⟩,
      e.user = 1) ∧
    get_user_score ⟨[⟨1, "a"⟩, ⟨2, "b"⟩], [⟨1, "f0", "easy", 1, 0, [2], 0⟩], []⟩ 2 = 0 ∧
    ∀ e ∈ ranking ⟨[⟨1, "a"⟩, ⟨2, "b"⟩], [⟨1, "f0", "easy", 1, 0, [2], 0⟩], []⟩,
      e.user ≠ 2 :=
  ⟨((ranking_characterization
      ⟨[⟨1, "a"⟩, ⟨2, "b"⟩], [⟨1, "f0", "easy", 1, 0, [2], 0⟩], []⟩).1 1).mpr
      ⟨by decide, by decide⟩,
    ((ranking_characterization
      ⟨[⟨1, "a"⟩, ⟨2, "b"⟩], [⟨1, "f0", "easy", 1, 0, [2], 0⟩], []⟩).2.2.2 2
      (by decide) (by decide))⟩

/-! ### C6 -/

lemma user_scores_pairwise_ne (db : DB) (hnd : (db.users.map (·.uid)).Nodup) :
    (user_scores_list db).Pairwise (fun a b => a.1 ≠ b.1) := by
  have hactive : (active_users db).Nodup := hnd.filter _
  unfold user_scores_list
  refine List.Pairwise.filterMap _ ?_ hactive
  intro u u' hne p hp p' hp'
  simp only [Option.mem_def] at hp hp'
  by_cases h : 0 < get_user_score db u
  · by_cases h' : 0 < get_user_score db u'
    · simp only [if_pos h] at hp
      simp only [if_pos h'] at hp'
      rw [Option.some_inj] at hp hp'
      subst hp
      subst hp'
      exact hne
    · simp only [if_neg h'] at hp'
      cases hp'
  · simp only [if_neg h] at hp
    cases hp

lemma find_rank_eq : ∀ (l : List (Nat × Int)) (n : Nat) (e : RankEntry),
    l.Pairwise (fun a b => a.1 ≠ b.1) → e ∈ add_ranks l n →
      find_rank l e.user n = some e.rank
  | p :: rest, n, e, hpw, he => by
    obtain ⟨hhead, htail⟩ := List.pairwise_cons.mp hpw
    rcases List.mem_cons.mp he with h | h
    · subst h
      simp [find_rank]
    · have hne : p.1 ≠ e.user :=
        hhead (e.user, e.score) (add_ranks_mem rest (n + 1) e h)
      simp only [find_rank, beq_iff_eq, hne, if_false]
      exact find_rank_eq rest (n + 1) e htail h

/-- C6: in a store with unique user keys and no score ties among ranked
users, the rank `user_profile` computes for a ranked user is exactly that
user's 1-based position (entry) in the list the `ranking` page renders. -/
theorem profile_rank_matches_ranking (db : DB)
    (hnd : (db.users.map (·.uid)).Nodup)
    (_hties : (ranking db).Pairwise (fun a b => a.score ≠ b.score))
    (e : RankEntry) (he : e ∈ ranking db) :
    user_profile_rank db e.user = some e.rank := by
  have h1 : (e.user, e.score) ∈ (user_scores_list db).insertionSort scoreGeRel :=
    add_ranks_mem _ 1 e he
  have h2 := (mem_user_scores_iff db (e.user, e.score)).mp
    ((List.mem_insertionSort scoreGeRel).mp h1)
  have hpos : 0 < get_user_score db e.user := h2.2.1 ▸ h2.2.2
  have hpw : ((user_scores_list db).insertionSort scoreGeRel).Pairwise
      (fun a b => a.1 ≠ b.1) :=
    ((List.perm_insertionSort scoreGeRel _).pairwise_iff
      (fun h => Ne.symm h)).mpr (user_scores_pairwise_ne db hnd)
  unfold user_profile_rank
  rw [if_pos hpos]
  exact find_rank_eq _ 1 e hpw he

/-- Witness for C6: two users with distinct scores 20 and 10; the profile
rank of user 1 equals their position 2 in the ranking list. -/
theorem profile_rank_matches_ranking_witness :
    user_profile_rank
      ⟨[⟨1, "a"⟩, ⟨2, "b"⟩],
        [⟨1, "f0", "easy", 1, 0, [2], 0⟩, ⟨2, "f1", "medium", 2, 0, [1], 0⟩], []⟩ 1 =
      some 2 :=
  profile_rank_matches_ranking
    ⟨[⟨1, "a"⟩, ⟨2, "b"⟩],
      [⟨1, "f0", "easy", 1, 0, [2], 0⟩, ⟨2, "f1", "medium", 2, 0, [1], 0⟩], []⟩
    (by decide) (by decide) ⟨1, 10, 2⟩ (by decide)

/-! ### C7 -/

/-- Every branch of `toggle_like` updates the membership row set the same
way — remove when present, add when absent — reports the derived
cardinality, and never touches the stored `like_count` column. -/
lemma toggle_like_effects (users : List SiteUser) (sample : AnalysisTask)
    (store : NotifStore) (uid now : Nat) :
    (toggle_like users sample store uid now).sample.favorited_by
      = (if sample.favorited_by.contains uid then m2m_remove sample.favorited_by uid
         else m2m_add sample.favorited_by uid) ∧
    (toggle_like users sample store uid now).like_count
      = (toggle_like users sample store uid now).sample.favorited_by.length ∧
    (toggle_like users sample store uid now).sample.like_count = sample.like_count := by
  unfold toggle_like
  cases ha : (uid == sample.author) with
  | true =>
    cases hc : sample.favorited_by.contains uid <;>
      simp [ha, hc, AnalysisTask.favorite_count]
  | false =>
    cases hc : sample.favorited_by.contains uid with
    | true => simp [ha, hc, AnalysisTask.favorite_count]
    | false =>
      cases hm : notif_first (store.notifs.filter
          (fun m => task_like_notif sample.author sample.id m && m.unread)) <;>
        simp [ha, hc, hm, AnalysisTask.favorite_count]

/-- The `toggle_solution_like` counterpart of `toggle_like_effects`. -/
lemma toggle_solution_like_effects (users : List SiteUser) (sol : Solution)
    (store : NotifStore) (uid now : Nat) :
    (toggle_solution_like users sol store uid now).solution.liked_by
      = (if sol.liked_by.contains uid then m2m_remove sol.liked_by uid
         else m2m_add sol.liked_by uid) ∧
    (toggle_solution_like users sol store uid now).like_count
      = (toggle_solution_like users sol store uid now).solution.liked_by.length := by
  unfold toggle_solution_like
  cases ha : (uid == sol.author) with
  | true =>
    cases hc : sol.liked_by.contains uid <;>
      simp [ha, hc, Solution.like_count]
  | false =>
    cases hc : sol.liked_by.contains uid with
    | true => simp [ha, hc, Solution.like_count]
    | false =>
      cases hm : notif_first (store.notifs.filter
          (fun m => solution_like_notif sol.author sol.id m && m.unread)) <;>
        simp [ha, hc, hm, Solution.like_count]

lemma m2m_remove_append_self {l : List Nat} {uid : Nat} (h : uid ∉ l) :
    m2m_remove (l ++ [uid]) uid = l := by
  unfold m2m_remove
  rw [List.filter_append]
  have h1 : l.filter (fun x => x != uid) = l :=
    List.filter_eq_self.mpr (fun x hx => by
      simp only [bne_iff_ne, ne_eq, decide_not, Bool.not_eq_eq_eq_not, Bool.not_false,
        decide_eq_true_eq]
      exact fun he => h (he ▸ hx))
  rw [h1]
  simp

/-- C7: a like followed by an unlike by the same user restores the relation
and the reported count, for tasks and for solutions alike; and the toggle's
primitive add/remove operations on the many-to-many relation are idempotent,
so repeating the same operation never double-counts. -/
theorem like_toggle_roundtrip :
    (∀ (users : List SiteUser) (sample : AnalysisTask) (store : NotifStore)
        (uid now later : Nat), uid ∉ sample.favorited_by →
      (toggle_like users (toggle_like users sample store uid now).sample
          (toggle_like users sample store uid now).store uid later).sample.favorited_by
        = sample.favorited_by ∧
      uid ∉ (toggle_like users (toggle_like users sample store uid now).sample
          (toggle_like users sample store uid now).store uid later).sample.favorited_by ∧
      (toggle_like users (toggle_like users sample store uid now).sample
          (toggle_like users sample store uid now).store uid later).like_count
        = sample.favorite_count) ∧
    (∀ (users : List SiteUser) (sol : Solution) (store : NotifStore)
        (uid now later : Nat), uid ∉ sol.liked_by →
      (toggle_solution_like users (toggle_solution_like users sol store uid now).solution
          (toggle_solution_like users sol store uid now).store uid later).solution.liked_by
        = sol.liked_by ∧
      uid ∉ (toggle_solution_like users
          (toggle_solution_like users sol store uid now).solution
          (toggle_solution_like users sol store uid now).store uid later).solution.liked_by ∧
      (toggle_solution_like users (toggle_solution_like users sol store uid now).solution
          (toggle_solution_like users sol store uid now).store uid later).like_count
        = sol.like_count) ∧
    (∀ (l : List Nat) (uid : Nat),
      m2m_add (m2m_add l uid) uid = m2m_add l uid ∧
      m2m_remove (m2m_remove l uid) uid = m2m_remove l uid) := by
  refine ⟨?_, ?_, ?_⟩
  · intro users sample store uid now later h
    have hc : sample.favorited_by.contains uid = false := by simpa using h
    obtain ⟨h1, _, _⟩ := toggle_like_effects users sample store uid now
    rw [hc, if_neg (by simp)] at h1
    have hadd : (toggle_like users sample store uid now).sample.favorited_by
        = sample.favorited_by ++ [uid] := by
      rw [h1]
      unfold m2m_add
      rw [hc, if_neg (by simp)]
    obtain ⟨g1, g2, _⟩ := toggle_like_effects users
      (toggle_like users sample store uid now).sample
      (toggle_like users sample store uid now).store uid later
    rw [hadd] at g1
    rw [if_pos (by simp)] at g1
    rw [m2m_remove_append_self h] at g1
    exact ⟨g1, g1 ▸ h, by rw [g2, g1]; rfl⟩
  · intro users sol store uid now later h
    have hc : sol.liked_by.contains uid = false := by simpa using h
    obtain ⟨h1, _⟩ := toggle_solution_like_effects users sol store uid now
    rw [hc, if_neg (by simp)] at h1
    have hadd : (toggle_solution_like users sol store uid now).solution.liked_by
        = sol.liked_by ++ [uid] := by
      rw [h1]
      unfold m2m_add
      rw [hc, if_neg (by simp)]
    obtain ⟨g1, g2⟩ := toggle_solution_like_effects users
      (toggle_solution_like users sol store uid now).solution
      (toggle_solution_like users sol store uid now).store uid later
    rw [hadd] at g1
    rw [if_pos (by simp)] at g1
    rw [m2m_remove_append_self h] at g1
    exact ⟨g1, g1 ▸ h, by rw [g2, g1]; rfl⟩
  · intro l uid
    constructor
    · by_cases hm : uid ∈ l
      · simp [m2m_add, hm]
      · simp [m2m_add, hm]
    · unfold m2m_remove
      rw [List.filter_filter]
      simp

/-- Witness for C7: user 2 likes then unlikes a task of author 5 whose only
prior like is from user 7; the relation returns to `[7]`. -/
theorem like_toggle_roundtrip_witness :
    (toggle_like [] (toggle_like [] ⟨1, "h", "easy", 5, 0, [7], 0⟩ ⟨[], 0⟩ 2 3).sample
        (toggle_like [] ⟨1, "h", "easy", 5, 0, [7], 0⟩ ⟨[], 0⟩ 2 3).store 2 4).sample.favorited_by
      = [7] :=
  (like_toggle_roundtrip.1 [] ⟨1, "h", "easy", 5, 0, [7], 0⟩ ⟨[], 0⟩ 2 3 4 (by decide)).1

/-! ### C8 -/

/-- C8: deleting the last reference solution (a solution authored by the
task's author when it is the only such solution on the task) is refused for
every requester — staff included — leaving the table unchanged; while a
non-reference solution, or a reference solution that is not the last one,
is deleted on POST by its author or by staff. -/
theorem delete_solution_reference_guard (db_solutions : List Solution)
    (sample : AnalysisTask) (sol : Solution) (uid : Nat) (staff is_post : Bool) :
    (sol.author = sample.author →
      (db_solutions.filter
        (fun s => s.analysis_task == sample.id && s.author == sample.author)).length ≤ 1 →
      (delete_solution db_solutions sample sol uid staff is_post).1 = db_solutions ∧
      (delete_solution db_solutions sample sol uid staff is_post).2
        ≠ DeleteOutcome.deleted) ∧
    ((sol.author = uid ∨ staff = true) → is_post = true →
      (sol.author ≠ sample.author ∨
        2 ≤ (db_solutions.filter
          (fun s => s.analysis_task == sample.id && s.author == sample.author)).length) →
      (delete_solution db_solutions sample sol uid staff is_post).1
        = db_solutions.filter (fun s => s.id != sol.id) ∧
      (delete_solution db_solutions sample sol uid staff is_post).2
        = DeleteOutcome.deleted) := by
  constructor
  · intro href hcount
    simp only [delete_solution]
    split_ifs with h1 h2 h3
    · exact ⟨rfl, by simp⟩
    · exact ⟨rfl, by simp⟩
    · exact absurd (by simp [href, hcount]) h3
    · exact ⟨rfl, by simp⟩
  · intro hperm hpost hcond
    have hc1 : (sol.author != uid && !staff) = false := by
      rcases hperm with h | h
      · simp [h]
      · simp [h]
    have hc3 : ((sol.author == sample.author) &&
        decide ((db_solutions.filter
          (fun s => s.analysis_task == sample.id && s.author == sample.author)).length ≤ 1))
        = false := by
      rcases hcond with h | h
      · simp [h]
      · have hn : ¬((db_solutions.filter
            (fun s => s.analysis_task == sample.id && s.author == sample.author)).length ≤ 1) :=
          by omega
        simp [hn]
    simp only [delete_solution, hpost, hc1, hc3]
    simp

/-- Witness for C8: a sole reference solution survives a staff POST delete
request. -/
theorem delete_solution_reference_guard_witness :
    (delete_solution [⟨9, 1, "t", "blog", 4, [], 0, none⟩] ⟨1, "h", "easy", 4, 0, [], 0⟩
      ⟨9, 1, "t", "blog", 4, [], 0, none⟩ 4 true true).1
      = [⟨9, 1, "t", "blog", 4, [], 0, none⟩] ∧
    (delete_solution [⟨9, 1, "t", "blog", 4, [], 0, none⟩] ⟨1, "h", "easy", 4, 0, [], 0⟩
      ⟨9, 1, "t", "blog", 4, [], 0, none⟩ 4 true true).2 ≠ DeleteOutcome.deleted :=
  (delete_solution_reference_guard [⟨9, 1, "t", "blog", 4, [], 0, none⟩]
    ⟨1, "h", "easy", 4, 0, [], 0⟩ ⟨9, 1, "t", "blog", 4, [], 0, none⟩ 4 true true).1
    rfl (by decide)

/-! ### C9 -/

/-- C9 counterexample: after one like on a fresh task, the stored
`like_count` column (models.py:306) still reads 0 while the relation
cardinality and the reported count are 1 — a stored count field exists and
is not the like state. -/
theorem stored_like_count_counterexample :
    (toggle_like [⟨1, "a"⟩, ⟨2, "b"⟩] ⟨1, "ab", "easy", 1, 0, [], 0⟩
      ⟨[], 0⟩ 2 5).sample.like_count = 0 ∧
    (toggle_like [⟨1, "a"⟩, ⟨2, "b"⟩] ⟨1, "ab", "easy", 1, 0, [], 0⟩
      ⟨[], 0⟩ 2 5).sample.favorited_by.length = 1 ∧
    (toggle_like [⟨1, "a"⟩, ⟨2, "b"⟩] ⟨1, "ab", "easy", 1, 0, [], 0⟩
      ⟨[], 0⟩ 2 5).like_count = 1 := by
  decide

/-- C9 amended: `AnalysisTask` carries a vestigial stored `like_count`
column that no like operation reads or updates; every count the program
reports is derived as the cardinality of the many-to-many relation
(`favorite_count`, `Solution.like_count`, and both toggle responses). -/
theorem like_counts_are_derived :
    (∀ (users : List SiteUser) (sample : AnalysisTask) (store : NotifStore)
        (uid now : Nat),
      (toggle_like users sample store uid now).like_count
        = (toggle_like users sample store uid now).sample.favorited_by.length ∧
      (toggle_like users sample store uid now).sample.like_count = sample.like_count) ∧
    (∀ (users : List SiteUser) (sol : Solution) (store : NotifStore) (uid now : Nat),
      (toggle_solution_like users sol store uid now).like_count
        = (toggle_solution_like users sol store uid now).solution.liked_by.length) ∧
    (∀ t : AnalysisTask, t.favorite_count = t.favorited_by.length) ∧
    (∀ s : Solution, s.like_count = s.liked_by.length) := by
  refine ⟨fun users sample store uid now => ?_, fun users sol store uid now => ?_,
    fun t => rfl, fun s => rfl⟩
  · obtain ⟨_, h2, h3⟩ := toggle_like_effects users sample store uid now
    exact ⟨h2, h3⟩
  · exact (toggle_solution_like_effects users sol store uid now).2

/-! ### C10 -/

/-- C10 counterexample: users 2 and 3 like a task of author 1 (creating an
aggregated 'liked' notification), the author likes and then unlikes their
own task.  That unlike takes the notification-free self path, so the
author's 'liked' notification for the task survives — the claim's "every
unlike deletes every like notification" fails for the author's own unlike. -/
theorem unlike_notification_counterexample :
    (toggle_like [⟨1, "alice"⟩, ⟨2, "bob"⟩, ⟨3, "carol"⟩]
      (toggle_like [⟨1, "alice"⟩, ⟨2, "bob"⟩, ⟨3, "carol"⟩]
        (toggle_like [⟨1, "alice"⟩, ⟨2, "bob"⟩, ⟨3, "carol"⟩]
          (toggle_like [⟨1, "alice"⟩, ⟨2, "bob"⟩, ⟨3, "carol"⟩]
            ⟨7, "abcdef", "easy", 1, 0, [], 0⟩ ⟨[], 0⟩ 2 10).sample
          (toggle_like [⟨1, "alice"⟩, ⟨2, "bob"⟩, ⟨3, "carol"⟩]
            ⟨7, "abcdef", "easy", 1, 0, [], 0⟩ ⟨[], 0⟩ 2 10).store 3 20).sample
        (toggle_like [⟨1, "alice"⟩, ⟨2, "bob"⟩, ⟨3, "carol"⟩]
          (toggle_like [⟨1, "alice"⟩, ⟨2, "bob"⟩, ⟨3, "carol"⟩]
            ⟨7, "abcdef", "easy", 1, 0, [], 0⟩ ⟨[], 0⟩ 2 10).sample
          (toggle_like [⟨1, "alice"⟩, ⟨2, "bob"⟩, ⟨3, "carol"⟩]
            ⟨7, "abcdef", "easy", 1, 0, [], 0⟩ ⟨[], 0⟩ 2 10).store 3 20).store 1 30).sample
      (toggle_like [⟨1, "alice"⟩, ⟨2, "bob"⟩, ⟨3, "carol"⟩]
        (toggle_like [⟨1, "alice"⟩, ⟨2, "bob"⟩, ⟨3, "carol"⟩]
          (toggle_like [⟨1, "alice"⟩, ⟨2, "bob"⟩, ⟨3, "carol"⟩]
            ⟨7, "abcdef", "easy", 1, 0, [], 0⟩ ⟨[], 0⟩ 2 10).sample
          (toggle_like [⟨1, "alice"⟩, ⟨2, "bob"⟩, ⟨3, "carol"⟩]
            ⟨7, "abcdef", "easy", 1, 0, [], 0⟩ ⟨[], 0⟩ 2 10).store 3 20).sample
        (toggle_like [⟨1, "alice"⟩, ⟨2, "bob"⟩, ⟨3, "carol"⟩]
          (toggle_like [⟨1, "alice"⟩, ⟨2, "bob"⟩, ⟨3, "carol"⟩]
            ⟨7, "abcdef", "easy", 1, 0, [], 0⟩ ⟨[], 0⟩ 2 10).sample
          (toggle_like [⟨1, "alice"⟩, ⟨2, "bob"⟩, ⟨3, "carol"⟩]
            ⟨7, "abcdef", "easy", 1, 0, [], 0⟩ ⟨[], 0⟩ 2 10).store 3 20).store 1 30).store
      1 40).liked = false ∧
    ∃ m ∈ (toggle_like [⟨1, "alice"⟩, ⟨2, "bob"⟩, ⟨3, "carol"⟩]
      (toggle_like [⟨1, "alice"⟩, ⟨2, "bob"⟩, ⟨3, "carol"⟩]
        (toggle_like [⟨1, "alice"⟩, ⟨2, "bob"⟩, ⟨3, "carol"⟩]
          (toggle_like [⟨1, "alice"⟩, ⟨2, "bob"⟩, ⟨3, "carol"⟩]
            ⟨7, "abcdef", "easy", 1, 0, [], 0⟩ ⟨[], 0⟩ 2 10).sample
          (toggle_like [⟨1, "alice"⟩, ⟨2, "bob"⟩, ⟨3, "carol"⟩]
            ⟨7, "abcdef", "easy", 1, 0, [], 0⟩ ⟨[], 0⟩ 2 10).store 3 20).sample
        (toggle_like [⟨1, "alice"⟩, ⟨2, "bob"⟩, ⟨3, "carol"⟩]
          (toggle_like [⟨1, "alice"⟩, ⟨2, "bob"⟩, ⟨3, "carol"⟩]
            ⟨7, "abcdef", "easy", 1, 0, [], 0⟩ ⟨[], 0⟩ 2 10).sample
          (toggle_like [⟨1, "alice"⟩, ⟨2, "bob"⟩, ⟨3, "carol"⟩]
            ⟨7, "abcdef", "easy", 1, 0, [], 0⟩ ⟨[], 0⟩ 2 10).store 3 20).store 1 30).sample
      (toggle_like [⟨1, "alice"⟩, ⟨2, "bob"⟩, ⟨3, "carol"⟩]
        (toggle_like [⟨1, "alice"⟩, ⟨2, "bob"⟩, ⟨3, "carol"⟩]
          (toggle_like [⟨1, "alice"⟩, ⟨2, "bob"⟩, ⟨3, "carol"⟩]
            ⟨7, "abcdef", "easy", 1, 0, [], 0⟩ ⟨[], 0⟩ 2 10).sample
          (toggle_like [⟨1, "alice"⟩, ⟨2, "bob"⟩, ⟨3, "carol"⟩]
            ⟨7, "abcdef", "easy", 1, 0, [], 0⟩ ⟨[], 0⟩ 2 10).store 3 20).sample
        (toggle_like [⟨1, "alice"⟩, ⟨2, "bob"⟩, ⟨3, "carol"⟩]
          (toggle_like [⟨1, "alice"⟩, ⟨2, "bob"⟩, ⟨3, "carol"⟩]
            ⟨7, "abcdef", "easy", 1, 0, [], 0⟩ ⟨[], 0⟩ 2 10).sample
          (toggle_like [⟨1, "alice"⟩, ⟨2, "bob"⟩, ⟨3, "carol"⟩]
            ⟨7, "abcdef", "easy", 1, 0, [], 0⟩ ⟨[], 0⟩ 2 10).store 3 20).store 1 30).store
      1 40).store.notifs,
      m.recipient = 1 ∧ m.verb = "liked" ∧
        m.target_type = TargetType.analysisTask ∧ m.target_id = 7 := by
  decide

/-- C10 amended: when a user other than the item's author unlikes, the
operation deletes every 'liked' (resp. 'liked_solution') notification
addressed to the item's author for that target — whatever its actor or
aggregated description — while removing only that user's relation row. -/
theorem unlike_deletes_every_like_notification :
    (∀ (users : List SiteUser) (sample : AnalysisTask) (store : NotifStore)
        (uid now : Nat), uid ≠ sample.author → uid ∈ sample.favorited_by →
      (toggle_like users sample store uid now).store.notifs
        = store.notifs.filter (fun m => !task_like_notif sample.author sample.id m) ∧
      (∀ m ∈ (toggle_like users sample store uid now).store.notifs,
        task_like_notif sample.author sample.id m = false) ∧
      (toggle_like users sample store uid now).sample.favorited_by
        = sample.favorited_by.filter (fun x => x != uid)) ∧
    (∀ (users : List SiteUser) (sol : Solution) (store : NotifStore)
        (uid now : Nat), uid ≠ sol.author → uid ∈ sol.liked_by →
      (toggle_solution_like users sol store uid now).store.notifs
        = store.notifs.filter (fun m => !solution_like_notif sol.author sol.id m) ∧
      (∀ m ∈ (toggle_solution_like users sol store uid now).store.notifs,
        solution_like_notif sol.author sol.id m = false) ∧
      (toggle_solution_like users sol store uid now).solution.liked_by
        = sol.liked_by.filter (fun x => x != uid)) := by
  constructor
  · intro users sample store uid now hne hmem
    have ha : (uid == sample.author) = false := by simp [hne]
    have hc : sample.favorited_by.contains uid = true := by simpa using hmem
    unfold toggle_like
    simp only [ha, hc, Bool.false_eq_true, if_false, if_true]
    refine ⟨trivial, fun m hm => ?_, rfl⟩
    have := (List.mem_filter.mp hm).2
    simpa using this
  · intro users sol store uid now hne hmem
    have ha : (uid == sol.author) = false := by simp [hne]
    have hc : sol.liked_by.contains uid = true := by simpa using hmem
    unfold toggle_solution_like
    simp only [ha, hc, Bool.false_eq_true, if_false, if_true]
    refine ⟨trivial, fun m hm => ?_, rfl⟩
    have := (List.mem_filter.mp hm).2
    simpa using this

/-- Witness for C10 amended: user 2's unlike on author 1's task wipes the
aggregated notification even though user 3 still likes the task. -/
theorem unlike_deletes_every_like_notification_witness :
    (toggle_like [] ⟨7, "ab", "easy", 1, 0, [2, 3], 0⟩
      ⟨[⟨0, 1, 3, "liked", TargetType.analysisTask, 7, "d", true, [], 9⟩], 1⟩
      2 11).store.notifs
      = [] ∧
    (toggle_like [] ⟨7, "ab", "easy", 1, 0, [2, 3], 0⟩
      ⟨[⟨0, 1, 3, "liked", TargetType.analysisTask, 7, "d", true, [], 9⟩], 1⟩
      2 11).sample.favorited_by = [3] :=
  ⟨((unlike_deletes_every_like_notification.1 [] ⟨7, "ab", "easy", 1, 0, [2, 3], 0⟩
      ⟨[⟨0, 1, 3, "liked", TargetType.analysisTask, 7, "d", true, [], 9⟩], 1⟩
      2 11 (by decide) (by decide)).1.trans (by decide)),
    ((unlike_deletes_every_like_notification.1 [] ⟨7, "ab", "easy", 1, 0, [2, 3], 0⟩
      ⟨[⟨0, 1, 3, "liked", TargetType.analysisTask, 7, "d", true, [], 9⟩], 1⟩
      2 11 (by decide) (by decide)).2.2.trans (by decide))⟩

end Samplepedia
